import Mathlib

/-!
Verification of the tagged error/exception core of the `adonis-effect-api-starter`
backend: a shallow embedding, in Lean, of the error data model
(`TaggedInternalError` / `TaggedException` factories), the runtime type
predicates (`is_error_type.ts`), the error conversion pipeline
(`error_conversion.ts`, `error_utility.ts`), the telemetry error logger
(`telemetry_utility.ts`), the managed runtime boundary (`runtime_utility.ts`),
the database transaction finalizer (`db_transaction.ts`), the response
data-mode inference (`http/internals/shared.ts`, `http_utility.ts`) and the
route-not-found message parser (`route_not_found_exception.ts`), together with
theorems settling the specification claims about them.
-/

set_option autoImplicit false

namespace AdonisSpec

/-! ## Structured data values

JSON-like structured values used for the `data` payload attached to tagged
errors and exceptions. -/

inductive DataVal where
  | vStr (s : String)
  | vNum (n : Int)
  | vBool (b : Bool)
  | vNull
  | vArr (xs : List DataVal)
  | vObj (fields : List (String × DataVal))
  deriving Repr

/-! ## Schema model

The attached-data schemas in the source are `effect` `Schema.Struct`s of
(mostly) primitive fields.  A schema is modelled as a list of field names with
their expected field type; decoding checks the value is an object carrying each
declared field with a conforming value (decode is the identity on success,
mirroring struct decode of plain data). -/

inductive FieldTy where
  | tStr
  | tNum
  | tBool
  | tArrField
  | tAny
  deriving DecidableEq, Repr

abbrev SchemaModel := List (String × FieldTy)

def lookupField (fields : List (String × DataVal)) (key : String) : Option DataVal :=
  match fields with
  | [] => none
  | (k, v) :: rest => if k = key then some v else lookupField rest key

def fieldOk : FieldTy → DataVal → Bool
  | .tStr, .vStr _ => true
  | .tNum, .vNum _ => true
  | .tBool, .vBool _ => true
  | .tArrField, .vArr _ => true
  | .tAny, _ => true
  | _, _ => false

/-- Decode (and thereby validate) a data value against a schema; `none` models
a parse failure of the underlying schema library. -/
def decodeSchema (sch : SchemaModel) (d : DataVal) : Option DataVal :=
  match d with
  | .vObj fields =>
      if sch.all (fun kt => match lookupField fields kt.1 with
                            | some v => fieldOk kt.2 v
                            | none => false)
      then some (.vObj fields)
      else none
  | _ => none

/-! ## Error kinds, classes and runtime values -/

/-- Closed error-kind classifier (`error_kind_constant.ts`): values are the
enum strings `internal_error` and `exception`. -/
inductive ErrorKind where
  | internal
  | exception
  deriving DecidableEq, Repr

/-- Foreign (non-tagged) error classes relevant to the conversion pipeline,
with their JavaScript inheritance:
`E_ROUTE_NOT_FOUND extends Exception extends Error`,
`E_VALIDATION_ERROR extends Error`, `TypeError extends Error`, plus the
schema library's `ParseError` (also an `Error`). -/
inductive JsClass where
  | adonisException
  | routeNotFound
  | vineValidationError
  | typeError
  | plainError
  | effectParseError
  deriving DecidableEq, Repr

/-- Runtime values an unknown failure can be: instances built by the tagged
error factories, foreign error instances, primitives, `undefined`, and bare
objects (possibly with a look-alike `_tag` field but without any kind
marker on their constructor). -/
inductive ErrVal where
  | tagged (kind : ErrorKind) (tag code message : String) (status : Nat)
      (cause : Option ErrVal) (schema : Option SchemaModel) (stored : Option DataVal)
  | foreign (cls : JsClass) (code message : String) (status : Nat)
      (cause : Option ErrVal) (payload : DataVal)
  | strVal (s : String)
  | numVal (n : Int)
  | undefVal
  | plainObj (tagField : Option String)
  deriving Repr

namespace ErrVal

def tagOf : ErrVal → String
  | .tagged _ tag _ _ _ _ _ _ => tag
  | _ => ""

def codeOf : ErrVal → String
  | .tagged _ _ code _ _ _ _ _ => code
  | .foreign _ code _ _ _ _ => code
  | _ => ""

def messageOf : ErrVal → String
  | .tagged _ _ _ message _ _ _ _ => message
  | .foreign _ _ message _ _ _ => message
  | _ => ""

def statusOf : ErrVal → Nat
  | .tagged _ _ _ _ status _ _ _ => status
  | .foreign _ _ _ status _ _ => status
  | _ => 0

def causeOf : ErrVal → Option ErrVal
  | .tagged _ _ _ _ _ cause _ _ => cause
  | .foreign _ _ _ _ cause _ => cause
  | _ => none

def schemaOf : ErrVal → Option SchemaModel
  | .tagged _ _ _ _ _ _ schema _ => schema
  | _ => none

def storedOf : ErrVal → Option DataVal
  | .tagged _ _ _ _ _ _ _ stored => stored
  | _ => none

def payloadOf : ErrVal → DataVal
  | .foreign _ _ _ _ _ payload => payload
  | _ => .vNull

/-- The kind marker readable from the value's constructor: the factory base
classes expose `INTERNAL_ERROR_MARKER` / `EXCEPTION_MARKER` as a static
property, every other constructor carries no marker. -/
def kindMarkerOf : ErrVal → Option ErrorKind
  | .tagged kind _ _ _ _ _ _ _ => some kind
  | _ => none

/-- Whether the value passes the `is.object(value) || is.class(value)` guard. -/
def isObjectLike : ErrVal → Bool
  | .tagged _ _ _ _ _ _ _ _ => true
  | .foreign _ _ _ _ _ _ => true
  | .plainObj _ => true
  | _ => false

end ErrVal

def JsClass.extendsAdonisException : JsClass → Bool
  | .adonisException => true
  | .routeNotFound => true
  | _ => false

/-- Model of `instanceof Exception` (the AdonisJS framework exception class). -/
def isInstanceOfAdonisException : ErrVal → Bool
  | .foreign cls _ _ _ _ _ => cls.extendsAdonisException
  | _ => false

/-- Model of `instanceof TypeError`. -/
def isInstanceOfTypeError : ErrVal → Bool
  | .foreign .typeError _ _ _ _ _ => true
  | _ => false

/-- Model of `instanceof Error` (and of the `is.error` helper).  Tagged error
and exception instances extend the effect library's `Data.Error`, which itself
extends the native `Error`. -/
def isInstanceOfError : ErrVal → Bool
  | .foreign _ _ _ _ _ _ => true
  | .tagged _ _ _ _ _ _ _ _ => true
  | _ => false

/-! ## Runtime type predicates (`core/error/internals/is_error_type.ts`)

The no-filter form of the guards: reject non-objects, then require the kind
marker on the value's constructor; with no tag or class filter given the
marker check alone decides. -/

/-- `isTaggedInternalError()(value)` with no tag/class filter. -/
def isTaggedInternalError (value : ErrVal) : Bool :=
  value.isObjectLike && (value.kindMarkerOf = some .internal)

/-- `isTaggedException()(value)` with no tag/class filter. -/
def isTaggedException (value : ErrVal) : Bool :=
  value.isObjectLike && (value.kindMarkerOf = some .exception)

/-! ## Error and exception code constants (`internal_error_constant.ts`,
`exception_constant.ts`) with their default messages. -/

def I_UNKNOWN_ERROR : String := "I_UNKNOWN_ERROR"
def I_SCHEMA_PARSE_ERROR : String := "I_SCHEMA_PARSE_ERROR"
def I_UNEXPECTED_RUNTIME_EXIT_RESULT_ERROR : String := "I_UNEXPECTED_RUNTIME_EXIT_RESULT_ERROR"
def E_INTERNAL_SERVER_ERROR : String := "E_INTERNAL_SERVER_ERROR"
def E_ROUTE_NOT_FOUND : String := "E_ROUTE_NOT_FOUND"
def E_VALIDATION_ERROR : String := "E_VALIDATION_ERROR"

def unknownErrorDefaultMessage : String :=
  "An unknown error that was not expected occurred and not able to be handled."

def internalServerDefaultMessage : String :=
  "Unexpected error occurred while processing the request and the server is unable to fulfill the request."

def routeNotFoundDefaultMessage : String :=
  "Could not find the requested route for the requested method."

def validationDefaultMessage : String :=
  "Validation failed for the request while processing the request payload."

def unexpectedRuntimeExitDefaultMessage : String :=
  "Unexpected runtime exit result returned from the application runtime and not able to be handled."

/-! ## Tagged error factory (`core/error/factories/tagged_internal_error.ts`,
`tagged_exception.ts`)

The factory produces a class whose constructor parses its arguments by shape:
an object first argument is the raw data payload (stored, not validated), a
string first argument is the message; missing message and code fall back to
the class defaults.  Construction performs no validation of the data. -/

structure ErrorDefaults where
  code : String
  message : String
  status : Nat := 0
  schema : Option SchemaModel := none

/-- Model of the factory base-class constructor after argument-shape
resolution: `dataArg` is the object first argument (if any), `messageArg` the
message argument (if any), `codeOpt`/`causeOpt` the options bundle.  The raw
`dataArg` is stored unvalidated; every other field is resolved from the
defaults. -/
def constructTagged (kind : ErrorKind) (tag : String) (defaults : ErrorDefaults)
    (dataArg : Option DataVal) (messageArg : Option String)
    (codeOpt : Option String) (causeOpt : Option ErrVal) : ErrVal :=
  .tagged kind tag (codeOpt.getD defaults.code) (messageArg.getD defaults.message)
    defaults.status causeOpt defaults.schema dataArg

/-- The schema library's `ParseError` raised by a failing `Schema.decode`
call; it is an `Error` but carries no kind marker of this system. -/
def parseFailVal (d : DataVal) : ErrVal :=
  .foreign .effectParseError "" "schema decode failure" 0 none d

/-- Model of the `data()` accessor of the factory base classes: returns
no-data when there is no declared schema or no stored data, otherwise
decodes-and-validates the stored payload, failing with the schema parse
failure when validation is violated. -/
def errData (e : ErrVal) : Except ErrVal (Option DataVal) :=
  match e with
  | .tagged _ _ _ _ _ _ schema stored =>
      match schema, stored with
      | some sch, some d =>
          match decodeSchema sch d with
          | some dec => .ok (some dec)
          | none => .error (parseFailVal d)
      | _, _ => .ok none
  | _ => .ok none

/-! ## Cause extraction (`core/error/internals/shared.ts`) -/

/-- Model of `Inspectable.toStringUnknown` restricted to the values on which
the conversion pipeline actually stringifies (non-error, non-object values
reach it through `new Error(toStringUnknown(error))`). -/
def toStringUnknown : ErrVal → String
  | .strVal s => s
  | .numVal n => toString n
  | .undefVal => "undefined"
  | .plainObj _ => "[object Object]"
  | .tagged _ tag _ message _ _ _ _ => tag ++ ": " ++ message
  | .foreign _ _ message _ _ _ => message

/-- A fresh `new Error(text)` value. -/
def mkErrorFromString (text : String) : ErrVal :=
  .foreign .plainError "" text 0 none .vNull

/-- `causeOfUnknownError()(error)`: tagged errors yield their own cause or
themselves; `Exception`/`TypeError`/`Error` instances yield their nested
error cause when it is an `Error`, else themselves; anything else yields
`undefined`.  Recursion is exactly one level deep. -/
def causeOfUnknownError (error : ErrVal) : Option ErrVal :=
  match error with
  | .tagged _ _ _ _ _ cause _ _ => some (cause.getD error)
  | .foreign _ _ _ _ cause _ =>
      match cause with
      | some c => if isInstanceOfError c then some c else some error
      | none => some error
  | _ => none

/-! ## `UnknownError` (`app/errors/unknown_error.ts`)

`UnknownError` extends `TaggedInternalError('unknown')` with **no** declared
schema and an empty class body.  Its inherited constructor resolves only the
`code` and `cause` entries of the options record; a `data` entry passed by a
caller inside the options record is never read, and the instance stores no
data (`data()` therefore always answers no-data). -/

def unknownErrorTag : String := "@error/internal/unknown"

/-- Model of `new UnknownError(message, { cause, data, code })`.  The
`dataOpt` argument models the `data` entry callers place in the options
record; faithfully to the constructor, it is discarded. -/
def mkUnknownError (message : Option String) (codeOpt : Option String)
    (causeOpt : Option ErrVal) (_discardedDataOpt : Option DataVal) : ErrVal :=
  constructTagged .internal unknownErrorTag
    { code := I_UNKNOWN_ERROR, message := unknownErrorDefaultMessage }
    none message codeOpt causeOpt

/-! ## Internal unknown error conversion
(`core/error/internals/error_conversion.ts`, `toInternalUnknownError`) -/

/-- The JavaScript `name` of an error value: the factory sets the prototype
name to the resolved tag, foreign classes use their class name. -/
def nameOf : ErrVal → String
  | .tagged _ tag _ _ _ _ _ _ => tag
  | .foreign .adonisException _ _ _ _ _ => "Exception"
  | .foreign .routeNotFound _ _ _ _ _ => "E_ROUTE_NOT_FOUND"
  | .foreign .vineValidationError _ _ _ _ _ => "E_VALIDATION_ERROR"
  | .foreign .typeError _ _ _ _ _ => "TypeError"
  | .foreign .plainError _ _ _ _ _ => "Error"
  | .foreign .effectParseError _ _ _ _ _ => "ParseError"
  | _ => ""

/-- `defu(a, b)` on object values: keys of `a` win, missing keys of `b` are
appended.  Mirrors the merge used for the option/data bundles. -/
def defuData : DataVal → DataVal → DataVal
  | .vObj a, .vObj b => .vObj (a ++ b.filter (fun kv => (lookupField a kv.1).isNone))
  | a, _ => a

/-- Model of `err.toJSON()` for tagged values, as assembled into the data
bundle of `toInternalUnknownError` (the serialized stored data stands in for
the schema-encoded payload, the cause is serialized to its name and
message). -/
def errToJSON (e : ErrVal) : DataVal :=
  match e with
  | .tagged kind tag code message status cause _ stored =>
      .vObj ([("_tag", .vStr tag),
              ("_kind", .vStr (match kind with
                               | .internal => "internal_error"
                               | .exception => "exception"))]
             ++ (match kind with
                 | .exception => [("status", .vNum (Int.ofNat status))]
                 | .internal => [])
             ++ [("code", .vStr code),
                 ("message", .vStr message),
                 ("cause", match cause with
                           | some c => .vObj [("name", .vStr (nameOf c)),
                                              ("message", .vStr c.messageOf)]
                           | none => .vNull),
                 ("data", stored.getD .vNull)])
  | _ => .vNull

/-- `toInternalUnknownError(message, options)(error)`
(`core/error/internals/error_conversion.ts`, lines 136-182): always produces
an `UnknownError`.  The data bundle (inner error JSON merged with the
`__exception__` marker for exceptions, or the caller-supplied data) is
computed and handed to the `UnknownError` constructor inside the options
record — where the constructor discards it. -/
def toInternalUnknownError (message : Option String) (optData : Option DataVal)
    (optCode : Option String) (error : ErrVal) : ErrVal :=
  let cause := causeOfUnknownError error
  match error with
  | .tagged kind _ code msg _ _ _ _ =>
      mkUnknownError (some (message.getD msg))
        (some (optCode.getD (match kind with
                             | .internal => code
                             | .exception => I_UNKNOWN_ERROR)))
        cause
        (some (defuData (optData.getD (errToJSON error))
                 (match kind with
                  | .exception => .vObj [("__exception__", .vStr code)]
                  | .internal => .vObj [])))
  | .foreign cls code msg _ _ _ =>
      if cls.extendsAdonisException then
        mkUnknownError (some (message.getD msg)) optCode cause
          (some (defuData (optData.getD (.vObj [])) (.vObj [("__exception__", .vStr code)])))
      else
        mkUnknownError message optCode
          (some (cause.getD (mkErrorFromString (toStringUnknown error)))) optData
  | _ =>
      mkUnknownError message optCode
        (some (cause.getD (mkErrorFromString (toStringUnknown error)))) optData

/-! ## `InternalServerException` (`app/exceptions/internal_server_exception.ts`)

`InternalServerException extends TaggedException('internal_server')` with
status 500, code `E_INTERNAL_SERVER_ERROR` and schema `{ error: string|null }`.
Its constructor inspects the wrapped error: an internal error contributes its
own cause (or itself) and its code into the data; a framework `Exception`
contributes its nested error cause (or itself), its code, and overrides the
status; a plain `Error` becomes the cause with the unknown-error code; any
other value leaves no cause. -/

def internalServerExceptionTag : String := "@error/exception/internal_server"

def internalServerExceptionSchema : SchemaModel := [("error", .tStr)]

def internalServerExceptionDefaults : ErrorDefaults :=
  { code := E_INTERNAL_SERVER_ERROR
  , message := internalServerDefaultMessage
  , status := 500
  , schema := some internalServerExceptionSchema }

/-- Helper assembling the `InternalServerException` instance fields. -/
def mkInternalServerException (message : Option String) (status : Nat)
    (cause : Option ErrVal) (dataErrorCode : String) : ErrVal :=
  .tagged .exception internalServerExceptionTag E_INTERNAL_SERVER_ERROR
    (message.getD internalServerDefaultMessage) status cause
    (some internalServerExceptionSchema)
    (some (.vObj [("error", .vStr dataErrorCode)]))

/-- Model of `new InternalServerException(error, message)`
(`InternalServerException.fromUnknownError(message)(error)`). -/
def internalServerExceptionFromUnknown (message : Option String) (error : ErrVal) : ErrVal :=
  if isTaggedInternalError error then
    mkInternalServerException message 500 (some ((error.causeOf).getD error)) error.codeOf
  else if isInstanceOfAdonisException error then
    let cause := match error.causeOf with
                 | some c => if isInstanceOfError c then c else error
                 | none => error
    mkInternalServerException message error.statusOf (some cause) error.codeOf
  else if isInstanceOfError error then
    mkInternalServerException message 500 (some error) I_UNKNOWN_ERROR
  else
    mkInternalServerException message 500 none I_UNKNOWN_ERROR

/-- `toInternalServerException(message)(error)`
(`core/error/internals/error_conversion.ts`, lines 201-219): internal errors,
framework exceptions, `TypeError`s and `Error`s are wrapped directly; anything
else is first converted through `toInternalUnknownError` and then wrapped. -/
def toInternalServerException (message : Option String) (error : ErrVal) : ErrVal :=
  if isTaggedInternalError error || isInstanceOfAdonisException error
     || isInstanceOfTypeError error || isInstanceOfError error then
    internalServerExceptionFromUnknown message error
  else
    internalServerExceptionFromUnknown message (toInternalUnknownError none none none error)

/-! ## Route-not-found message parsing (`app/exceptions/route_not_found_exception.ts`)

`RouteNotFoundException.fromException` matches the framework exception's
message against the regular expression
`^Cannot\s+(\S[^:]*):(\S[^:]*)$`.
Both capture groups are trimmed on success; on mismatch the data falls back
to `unknown`/`unknown`.  The matcher below is the shallow embedding of that
exact pattern (for this pattern JavaScript backtracking is deterministic: the
separator colon is forced to be the first colon after the first matched
character, and no shorter whitespace or group extent can succeed). -/

/-- The JavaScript `\s` whitespace class. -/
def isJsWhitespace (c : Char) : Bool :=
  (0x09 ≤ c.toNat && c.toNat ≤ 0x0D) || c.toNat = 0x20 || c.toNat = 0xA0
    || c.toNat = 0x1680 || (0x2000 ≤ c.toNat && c.toNat ≤ 0x200A)
    || c.toNat = 0x2028 || c.toNat = 0x2029 || c.toNat = 0x202F
    || c.toNat = 0x205F || c.toNat = 0x3000 || c.toNat = 0xFEFF

/-- JavaScript `String.prototype.trim` (strips the `\s` class at both ends). -/
def jsTrim (s : String) : String :=
  String.mk (((s.toList.dropWhile isJsWhitespace).reverse.dropWhile isJsWhitespace).reverse)

/-- Strip a literal prefix from a character list. -/
def dropLiteral : List Char → List Char → Option (List Char)
  | [], rest => some rest
  | _ :: _, [] => none
  | p :: ps, c :: cs => if p = c then dropLiteral ps cs else none

/-- Execute `^Cannot\s+(\S[^:]*):(\S[^:]*)$` against a message, returning the
two (untrimmed) capture groups on success. -/
def routeParse (message : String) : Option (String × String) :=
  match dropLiteral "Cannot".toList message.toList with
  | none => none
  | some afterLiteral =>
      let ws := afterLiteral.takeWhile isJsWhitespace
      if ws.isEmpty then none
      else
        match afterLiteral.drop ws.length with
        | [] => none
        | c1 :: tail =>
            let r1 := tail.takeWhile (fun c => c ≠ ':')
            match tail.drop r1.length with
            | ':' :: g2part =>
                match g2part with
                | [] => none
                | c2 :: r2 =>
                    if isJsWhitespace c2 then none
                    else if r2.all (fun c => c ≠ ':') then
                      some (String.mk (c1 :: r1), String.mk (c2 :: r2))
                    else none
            | _ => none

def routeNotFoundExceptionTag : String := "@error/exception/route_not_found"

def routeNotFoundSchema : SchemaModel := [("method", .tStr), ("url", .tStr)]

/-- `RouteNotFoundException.fromException()(exception)`: parse method and url
from the message (trimmed), fall back to `unknown`/`unknown`, record the
original exception as the cause and reuse its message. -/
def routeNotFoundFromException (exception : ErrVal) : ErrVal :=
  let parsed := routeParse exception.messageOf
  let method := match parsed with
                | some (g1, _) => jsTrim g1
                | none => "unknown"
  let url := match parsed with
             | some (_, g2) => jsTrim g2
             | none => "unknown"
  .tagged .exception routeNotFoundExceptionTag E_ROUTE_NOT_FOUND exception.messageOf 404
    (some exception) (some routeNotFoundSchema)
    (some (.vObj [("method", .vStr method), ("url", .vStr url)]))

def validationExceptionTag : String := "@error/exception/validation"

def validationExceptionSchema : SchemaModel := [("issues", .tArrField)]

/-- `ValidationException.fromException()(exception)`: the validation
library's issue messages become the attached data, the original exception the
cause; with no message argument the class default message applies. -/
def validationExceptionFromException (exception : ErrVal) : ErrVal :=
  .tagged .exception validationExceptionTag E_VALIDATION_ERROR validationDefaultMessage 422
    (some exception) (some validationExceptionSchema)
    (some (.vObj [("issues", exception.payloadOf)]))

/-! ## Terminal exception conversion (`error_conversion.ts`) -/

/-- `toKnownExceptionOrUndefined()(error)`: a tagged exception passes through
unchanged; a framework route-not-found or validation-library error maps to
its corresponding exception; anything else yields `undefined`. -/
def toKnownExceptionOrUndefined (error : ErrVal) : Option ErrVal :=
  if isTaggedException error then some error
  else
    match error with
    | .foreign .routeNotFound _ _ _ _ _ => some (routeNotFoundFromException error)
    | .foreign .vineValidationError _ _ _ _ _ => some (validationExceptionFromException error)
    | _ => none

/-- `toException(message)(error)` (lines 240-248): the single terminal
conversion — recognized exceptions first, otherwise the internal server
exception fallback. -/
def toException (message : Option String) (error : ErrVal) : ErrVal :=
  (toKnownExceptionOrUndefined error).getD (toInternalServerException message error)

/-! ## Legacy conversion generation
(`core/error_and_exception/utils/error_utility.ts`)

The older `ErrorUtility.toInternalUnknownError` (lines 178-229) with its
explicit `TypeError`/`Error` branch.  It builds the same kind of data bundle
and passes it in the options record of `new UnknownError(...)` — the same
constructor that discards it. -/

namespace ErrorAndException

/-- `ErrorUtility.toInternalUnknownError(message, options)(error)` of the
`error_and_exception` generation. -/
def toInternalUnknownError (message : Option String) (optData : Option DataVal)
    (optCode : Option String) (error : ErrVal) : ErrVal :=
  match error with
  | .tagged kind _ code msg _ cause _ stored =>
      mkUnknownError (some (message.getD msg))
        (some (optCode.getD (match kind with
                             | .internal => code
                             | .exception => I_UNKNOWN_ERROR)))
        (some (cause.getD error))
        (some (match optData with
               | some d => d
               | none => defuData (stored.getD (.vObj []))
                           (match kind with
                            | .exception => .vObj [("__exception__", .vStr code)]
                            | .internal => .vObj [])))
  | .foreign cls code msg _ cause _ =>
      if cls.extendsAdonisException then
        mkUnknownError (some (message.getD msg)) optCode
          (some (match cause with
                 | some c => if isInstanceOfError c then c else error
                 | none => error))
          (some (defuData (optData.getD (.vObj [])) (.vObj [("__exception__", .vStr code)])))
      else
        mkUnknownError (some (message.getD msg)) optCode (some error) optData
  | _ =>
      mkUnknownError message optCode
        (some (mkErrorFromString (toStringUnknown error))) optData

end ErrorAndException

/-! ## Telemetry error logging (`core/telemetry/utils/telemetry_utility.ts`,
`logError`, lines 222-316)

The logger matches the error against the requested categories and emits at
most one structured record through the OpenTelemetry logger.  For tagged
errors the attached data is read through the `data()` accessor inside the
same effect, so a failing decode fails the whole logging effect before any
record is emitted. -/

inductive LogCategory where
  | internalErrorCat
  | knownExceptionCat
  | adonisExceptionCat
  | unknownCat
  | allCat
  deriving DecidableEq, Repr

structure LogRecord where
  severityText : String
  body : String
  typ : String
  kindLabel : String
  message : String
  data : Option DataVal
  causeAttr : Option (String × String)
  deriving Repr

/-- `toString()` of a tagged error or exception
(tag/code/message, exceptions additionally show the status). -/
def errToString (e : ErrVal) : String :=
  match e with
  | .tagged .internal tag code message _ _ _ _ =>
      "<" ++ tag ++ "> [" ++ code ++ "]: " ++ message
  | .tagged .exception tag code message status _ _ _ =>
      "<" ++ tag ++ "> " ++ toString status ++ " [" ++ code ++ "]: " ++ message
  | _ => toStringUnknown e

/-- JavaScript `String(value)` for the values the unknown branch stringifies. -/
def jsStringOf (e : ErrVal) : String :=
  match e with
  | .strVal s => s
  | .numVal n => toString n
  | .undefVal => "undefined"
  | .plainObj _ => "[object Object]"
  | .foreign _ _ message _ _ _ => nameOf e ++ ": " ++ message
  | .tagged _ _ _ _ _ _ _ _ => errToString e

/-- `TelemetryUtility.logError(error, log, scope, version?)`: the emitted
records of the returned effect, or the failure it dies with when reading the
attached data fails. -/
def logError (error : ErrVal) (log : List LogCategory) : Except ErrVal (List LogRecord) :=
  if (isTaggedInternalError error
        && (log.contains .internalErrorCat || log.contains .allCat))
     || (isTaggedException error
        && (log.contains .knownExceptionCat || log.contains .allCat)) then
    match errData error with
    | .error f => .error f
    | .ok d =>
        .ok [{ severityText := "ERROR"
             , body := (match error.kindMarkerOf with
                        | some .internal => "[INTERNAL] "
                        | _ => "[EXCEPTION] ") ++ errToString error
             , typ := error.tagOf
             , kindLabel := match error.kindMarkerOf with
                            | some .internal => "internal_error"
                            | _ => "exception"
             , message := error.messageOf
             , data := d
             , causeAttr := error.causeOf.map (fun c => (nameOf c, c.messageOf)) }]
  else if isInstanceOfAdonisException error
          && (log.contains .adonisExceptionCat || log.contains .allCat) then
    .ok [{ severityText := "ERROR"
         , body := "[ADONIS_EXCEPTION] " ++ jsStringOf error
         , typ := error.codeOf
         , kindLabel := "adonis_exception"
         , message := error.messageOf
         , data := none
         , causeAttr := error.causeOf.bind (fun c =>
             if isInstanceOfError c then some (nameOf c, c.messageOf) else none) }]
  else if (log.contains .unknownCat || log.contains .allCat)
          && !isTaggedInternalError error && !isTaggedException error
          && !isInstanceOfAdonisException error then
    .ok [{ severityText := "ERROR"
         , body := "[UNKNOWN ERROR] " ++ jsStringOf error
         , typ := "unknown"
         , kindLabel := "unknown"
         , message := jsStringOf error
         , data := none
         , causeAttr := none }]
  else
    .ok []

/-! ## Managed runtime boundary (`core/runtime/utils/runtime_utility.ts`)

A unit of work is modelled by its outcome: a success value, a typed failure,
or a defect (die).  `managed` scopes the effect, taps failure causes for
logging (a failing tap replaces the cause with the tap's own failure, per
`Effect.tapErrorCause` semantics), converts non-exception failures through
`toException`, and converts all defects through `toException`. -/

inductive MiniEffect (α : Type) where
  | succeed (a : α)
  | failWith (e : ErrVal)
  | dieWith (d : ErrVal)

/-- The failure (if any) of the telemetry logging step inside the
`Effect.tapErrorCause` block of `managed` (invoked with categories
`['all']`; the secondary structured-logger step is an `Effect.sync` and
cannot fail). -/
def tapManagedLog (e : ErrVal) : Option ErrVal :=
  match logError e [.allCat] with
  | .error f => some f
  | .ok _ => none

/-- `RuntimeUtility.managed(self)` (lines 84-141). -/
def managed {α : Type} (self : MiniEffect α) : MiniEffect α :=
  let tapped : MiniEffect α :=
    match self with
    | .succeed a => .succeed a
    | .failWith e =>
        match tapManagedLog e with
        | some f => .failWith f
        | none => .failWith e
    | .dieWith d =>
        match tapManagedLog d with
        | some f => .failWith f
        | none => .dieWith d
  let caught : MiniEffect α :=
    match tapped with
    | .failWith e => if !isTaggedException e then .failWith (toException none e) else .failWith e
    | x => x
  match caught with
  | .dieWith d => .failWith (toException none d)
  | x => x

/-! ## Runtime exit handling (`RuntimeUtility.handleRuntimeExitResult`,
lines 53-73) -/

inductive MiniCause where
  | failCauseOf (e : ErrVal)
  | dieCauseOf (d : ErrVal)
  | interruptCause

inductive RuntimeExit (α : Type) where
  | success (a : α)
  | failure (c : MiniCause)

/-- `new UnexpectedRuntimeExitResultError({ result })`
(`app/errors/unexpected_runtime_exit_result_error.ts`): tagged internal error
with schema `{ result }` holding the unexpected exit. -/
def unexpectedRuntimeExitResultError : ErrVal :=
  constructTagged .internal "@error/internal/unexpected_runtime_exit_result"
    { code := I_UNEXPECTED_RUNTIME_EXIT_RESULT_ERROR
    , message := unexpectedRuntimeExitDefaultMessage
    , schema := some [("result", .tAny)] }
    (some (.vObj [("result", .vNull)])) none none none

/-- `handleRuntimeExitResult(self)`: a clean failure is rethrown as-is, a
defect is converted to an internal server exception, a success returns the
value, and any other exit shape raises an internal server exception wrapping
an `UnexpectedRuntimeExitResultError`. -/
def handleRuntimeExitResult {α : Type} (self : RuntimeExit α) : Except ErrVal α :=
  match self with
  | .failure (.failCauseOf e) => .error e
  | .failure (.dieCauseOf d) => .error (toInternalServerException none d)
  | .success a => .ok a
  | .failure .interruptCause =>
      .error (internalServerExceptionFromUnknown none unexpectedRuntimeExitResultError)

/-- The exit produced by `runPromiseExit` for a finished unit of work. -/
def runPromiseExit {α : Type} (self : MiniEffect α) : RuntimeExit α :=
  match self with
  | .succeed a => .success a
  | .failWith e => .failure (.failCauseOf e)
  | .dieWith d => .failure (.dieCauseOf d)

/-- `RuntimeUtility.run(options)(self)` (lines 156-168): execute the managed
effect and hand the exit to `handleRuntimeExitResult`; `Except.error` models
the promise rejecting with the thrown value. -/
def run {α : Type} (self : MiniEffect α) : Except ErrVal α :=
  handleRuntimeExitResult (runPromiseExit (managed self))

/-! ## Database transaction finalizer (`core/db/internals/db_transaction.ts`)

`createDatabaseTransaction` acquires the transaction and immediately attaches
a finalizer that dispatches on the exit of the surrounding scope:
`Exit.matchEffect` sends every failure exit (including interruption) to
rollback and every success exit to commit, each wrapped in `Effect.ignore`.
Closing the scope runs each registered finalizer exactly once with that
exit. -/

inductive TrxOp where
  | commit
  | rollback
  deriving DecidableEq, Repr

/-- Exit of the transaction-scoped unit of work.  An `Exit` is either a
success or a failure; interruption (cancellation) is a failure exit. -/
inductive ScopeExit where
  | succeeds
  | fails (e : ErrVal)
  | interrupted

/-- The finalizer attached by `createDatabaseTransaction` at creation time. -/
def databaseTransactionFinalizer (exit : ScopeExit) : List TrxOp :=
  match exit with
  | .succeeds => [.commit]
  | .fails _ => [.rollback]
  | .interrupted => [.rollback]

/-- Closing a scope runs every registered finalizer (in reverse registration
order) with the scope's exit; the resulting trace lists the transaction
operations invoked. -/
def closeScope (finalizers : List (ScopeExit → List TrxOp)) (exit : ScopeExit) : List TrxOp :=
  finalizers.reverse.flatMap (fun f => f exit)

/-- A unit of work that created one database transaction and then exited with
the given exit: the transaction operations its scope closure invokes. -/
def runTransactionalUnit (exit : ScopeExit) : List TrxOp :=
  closeScope [databaseTransactionFinalizer] exit

/-! ## Response data-mode inference -/

/-- The `ResponseDataMode` enum (`response_data_mode_constant.ts`). -/
inductive ResponseDataMode where
  | single
  | paginated
  | list
  | raw
  | nodata
  deriving DecidableEq, Repr

/-- Shape of a success value as the inference functions discriminate it. -/
inductive JsShape where
  | undef
  | nullV
  | arrV
  | objV
  | strV
  | numV
  | boolV
  deriving DecidableEq, Repr

/-- `is.array`. -/
def isArrayShape : JsShape → Bool
  | .arrV => true
  | _ => false

/-- `is.object`: non-null values of object type (arrays included). -/
def isObjectShape : JsShape → Bool
  | .objV => true
  | .arrV => true
  | _ => false

/-- `inferResponseDataModeFromData()(data)` of
`core/http/internals/shared.ts` (lines 11-19): `undefined` maps to none,
arrays map to list, and everything else falls to raw — this version has no
plain-object case. -/
def inferResponseDataModeFromData (data : JsShape) : ResponseDataMode :=
  if data = .undef then .nodata
  else if isArrayShape data then .list
  else .raw

/-- `HttpUtility.Response.inferResponseDataModeFromData(data)` of
`core/http/utils/http_utility.ts` (lines 19-27): `undefined` maps to none,
arrays to list, remaining objects to single, everything else to raw. -/
def inferResponseDataModeHttpUtility (data : JsShape) : ResponseDataMode :=
  if data = .undef then .nodata
  else if isArrayShape data then .list
  else if isObjectShape data then .single
  else .raw

/-! ## Shared lemmas -/

/-- Every branch of the `InternalServerException` constructor produces a
tagged exception instance. -/
theorem isTaggedException_internalServerExceptionFromUnknown
    (message : Option String) (error : ErrVal) :
    isTaggedException (internalServerExceptionFromUnknown message error) = true := by
  unfold internalServerExceptionFromUnknown
  split
  · rfl
  · split
    · rfl
    · split <;> rfl

/-- Both branches of `toInternalServerException` produce a tagged exception
instance. -/
theorem isTaggedException_toInternalServerException
    (message : Option String) (error : ErrVal) :
    isTaggedException (toInternalServerException message error) = true := by
  unfold toInternalServerException
  split
  · exact isTaggedException_internalServerExceptionFromUnknown message error
  · exact isTaggedException_internalServerExceptionFromUnknown message _

/-- Whatever `toKnownExceptionOrUndefined` recognizes is a tagged exception
instance. -/
theorem isTaggedException_toKnownExceptionOrUndefined (error v : ErrVal)
    (h : toKnownExceptionOrUndefined error = some v) : isTaggedException v = true := by
  unfold toKnownExceptionOrUndefined at h
  by_cases he : isTaggedException error = true
  · rw [if_pos he] at h
    injection h with h
    subst h
    exact he
  · rw [if_neg he] at h
    cases error <;> try exact Option.noConfusion h
    rename_i cls code msg status cause payload
    cases cls <;> try exact Option.noConfusion h
    · injection h with h
      subst h
      rfl
    · injection h with h
      subst h
      rfl

/-- The terminal conversion always yields a tagged exception instance. -/
theorem isTaggedException_toException (message : Option String) (error : ErrVal) :
    isTaggedException (toException message error) = true := by
  unfold toException
  cases hk : toKnownExceptionOrUndefined error with
  | some v =>
      rw [Option.getD_some]
      exact isTaggedException_toKnownExceptionOrUndefined error v hk
  | none =>
      rw [Option.getD_none]
      exact isTaggedException_toInternalServerException message error

/-- Every branch of the `InternalServerException` constructor carries the
`internal_server` exception tag. -/
theorem tagOf_internalServerExceptionFromUnknown (message : Option String) (error : ErrVal) :
    (internalServerExceptionFromUnknown message error).tagOf = internalServerExceptionTag := by
  unfold internalServerExceptionFromUnknown
  split
  · rfl
  · split
    · rfl
    · split <;> rfl

/-- Both branches of `toInternalServerException` carry the `internal_server`
exception tag. -/
theorem tagOf_toInternalServerException (message : Option String) (error : ErrVal) :
    (toInternalServerException message error).tagOf = internalServerExceptionTag := by
  unfold toInternalServerException
  split <;> exact tagOf_internalServerExceptionFromUnknown _ _

/-- Whether the value is one of the recognized foreign error shapes
(framework route-not-found, validation-library validation error). -/
def isRecognizedForeign : ErrVal → Bool
  | .foreign .routeNotFound _ _ _ _ _ => true
  | .foreign .vineValidationError _ _ _ _ _ => true
  | _ => false

/-- On values that are neither tagged exceptions nor recognized foreign
errors, `toKnownExceptionOrUndefined` answers `undefined`. -/
theorem toKnownExceptionOrUndefined_eq_none (error : ErrVal)
    (h1 : isTaggedException error = false) (h2 : isRecognizedForeign error = false) :
    toKnownExceptionOrUndefined error = none := by
  unfold toKnownExceptionOrUndefined
  rw [if_neg (by rw [h1]; exact Bool.false_ne_true)]
  cases error <;> try rfl
  rename_i cls code msg status cause payload
  cases cls <;> first
    | rfl
    | simp [isRecognizedForeign] at h2

/-! ## Claim C1 — totality of the terminal conversion -/

/-- **C1**: for every unknown input, `toException(message?)(error)` returns a
tagged exception instance — the input itself when it already is a tagged
exception, the mapped known exception for a recognized foreign error
(framework route-not-found, validation-library validation error), and an
`InternalServerException` otherwise — totally (never a throw, never
`undefined`). -/
theorem toException_total_conversion (message : Option String) (error : ErrVal) :
    isTaggedException (toException message error) = true
    ∧ (isTaggedException error = true → toException message error = error)
    ∧ (∀ code msg status cause payload,
        error = .foreign .routeNotFound code msg status cause payload →
        toException message error = routeNotFoundFromException error)
    ∧ (∀ code msg status cause payload,
        error = .foreign .vineValidationError code msg status cause payload →
        toException message error = validationExceptionFromException error)
    ∧ (isTaggedException error = false → isRecognizedForeign error = false →
        toException message error = toInternalServerException message error
        ∧ (toException message error).tagOf = internalServerExceptionTag) := by
  refine ⟨isTaggedException_toException message error, ?_, ?_, ?_, ?_⟩
  · intro h
    unfold toException toKnownExceptionOrUndefined
    rw [if_pos h, Option.getD_some]
  · intro code msg status cause payload h
    subst h
    rfl
  · intro code msg status cause payload h
    subst h
    rfl
  · intro h1 h2
    have hnone := toKnownExceptionOrUndefined_eq_none error h1 h2
    constructor
    · unfold toException
      rw [hnone, Option.getD_none]
    · unfold toException
      rw [hnone, Option.getD_none]
      exact tagOf_toInternalServerException message error

/-- Sample tagged exception instance built by the factory. -/
def sampleTaggedException : ErrVal :=
  .tagged .exception "@error/exception/demo" "E_DEMO" "a demo exception" 400 none none none

/-- Witness for C1: a tagged exception passes through unchanged, and an
arbitrary thrown string still converts to a tagged exception. -/
theorem toException_total_conversion_witness :
    toException none sampleTaggedException = sampleTaggedException
    ∧ isTaggedException (toException none (.strVal "boom")) = true
    ∧ (toException none (.strVal "boom")).tagOf = internalServerExceptionTag := by
  refine ⟨?_, (toException_total_conversion none (.strVal "boom")).1, ?_⟩
  · exact (toException_total_conversion none sampleTaggedException).2.1 (by rfl)
  · exact ((toException_total_conversion none (.strVal "boom")).2.2.2.2 (by rfl) (by rfl)).2

/-! ## Claim C2 — boundary normalization -/

/-- Normalizing a failure value as the `managed` pipeline does (keep a tagged
exception, convert anything else through `toException`) always yields a
tagged exception. -/
theorem isTaggedException_normalize (e1 : ErrVal) :
    isTaggedException (if isTaggedException e1 then e1 else toException none e1) = true := by
  by_cases hf : isTaggedException e1 = true
  · rw [if_pos hf]
    exact hf
  · rw [if_neg (by rw [Bool.not_eq_true] at hf; rw [hf]; exact Bool.false_ne_true)]
    exact isTaggedException_toException none e1

theorem managed_succeed_eq {α : Type} (a : α) :
    managed (.succeed a) = .succeed a := rfl

/-- Reduction of `managed` on a typed failure: the tap may replace the
failure with its own, then non-exceptions are converted. -/
theorem managed_failWith_eq {α : Type} (e0 : ErrVal) :
    managed (α := α) (.failWith e0) =
      .failWith (if isTaggedException ((tapManagedLog e0).getD e0)
                 then (tapManagedLog e0).getD e0
                 else toException none ((tapManagedLog e0).getD e0)) := by
  cases ht : tapManagedLog e0 with
  | none =>
      simp only [managed, ht, Option.getD_none]
      by_cases hf : isTaggedException e0 = true <;> simp [hf]
  | some f =>
      simp only [managed, ht, Option.getD_some]
      by_cases hf : isTaggedException f = true <;> simp [hf]

/-- Reduction of `managed` on a defect: the tap may turn it into its own
typed failure (then normalized), otherwise the defect is caught by
`catchAllDefect` and converted. -/
theorem managed_dieWith_eq {α : Type} (d : ErrVal) :
    managed (α := α) (.dieWith d) =
      .failWith (match tapManagedLog d with
                 | some f => if isTaggedException f then f else toException none f
                 | none => toException none d) := by
  cases ht : tapManagedLog d with
  | none => simp only [managed, ht]
  | some f =>
      simp only [managed, ht]
      by_cases hf : isTaggedException f = true <;> simp [hf]

/-- Structure of `managed`: success passes through, every failure is turned
into a tagged exception failure, and no defect survives. -/
theorem managed_spec {α : Type} (self : MiniEffect α) :
    (∀ a, self = .succeed a → managed self = .succeed a)
    ∧ (∀ e, managed self = .failWith e → isTaggedException e = true)
    ∧ (∀ d, managed self ≠ .dieWith d) := by
  cases self with
  | succeed a =>
      refine ⟨fun b hb => by rw [hb]; exact managed_succeed_eq b, ?_, ?_⟩
      · intro e h
        exact MiniEffect.noConfusion h
      · intro d h
        exact MiniEffect.noConfusion h
  | failWith e0 =>
      refine ⟨fun b hb => MiniEffect.noConfusion hb, ?_, ?_⟩
      · intro e h
        rw [managed_failWith_eq] at h
        injection h with h
        rw [← h]
        exact isTaggedException_normalize _
      · intro d h
        rw [managed_failWith_eq] at h
        exact MiniEffect.noConfusion h
  | dieWith d0 =>
      refine ⟨fun b hb => MiniEffect.noConfusion hb, ?_, ?_⟩
      · intro e h
        rw [managed_dieWith_eq] at h
        injection h with h
        rw [← h]
        cases ht : tapManagedLog d0 with
        | none => exact isTaggedException_toException none d0
        | some f => exact isTaggedException_normalize f
      · intro d h
        rw [managed_dieWith_eq] at h
        exact MiniEffect.noConfusion h

/-- **C2**: every effect run through the managed runtime boundary either
returns its computed value unchanged or rejects with a tagged exception
instance — a raw error or string never escapes the entry point. -/
theorem run_boundary_normalization {α : Type} (self : MiniEffect α) :
    (∀ e, run self = .error e → isTaggedException e = true)
    ∧ (∀ a, self = .succeed a → run self = .ok a) := by
  obtain ⟨hs, hf, hd⟩ := managed_spec self
  constructor
  · intro e h
    unfold run at h
    cases hm : managed self with
    | succeed a =>
        rw [hm] at h
        exact Except.noConfusion h
    | failWith e1 =>
        rw [hm] at h
        injection h with h
        rw [← h]
        exact hf e1 hm
    | dieWith d =>
        exact absurd hm (hd d)
  · intro a ha
    unfold run
    rw [hs a ha]
    rfl

/-- Witness for C2: an arbitrary thrown string rejects as a tagged exception
and a pure success returns its value. -/
theorem run_boundary_normalization_witness :
    run (α := Nat) (.failWith (.strVal "kaboom"))
      = .error (toException none (.strVal "kaboom"))
    ∧ isTaggedException (toException none (.strVal "kaboom")) = true
    ∧ run (α := Nat) (.succeed 7) = .ok 7 := by
  refine ⟨rfl, ?_, ?_⟩
  · exact (run_boundary_normalization (α := Nat) (.failWith (.strVal "kaboom"))).1 _ rfl
  · exact (run_boundary_normalization (α := Nat) (.succeed 7)).2 7 rfl

/-! ## Claim C3 — narrowing soundness of the kind predicates -/

/-- **C3**: factory-built internal errors satisfy `isTaggedInternalError` and
fail `isTaggedException`, symmetrically for factory-built exceptions; and a
bare object whose `_tag` merely resembles a namespaced error tag, but whose
constructor carries no kind marker, is rejected by both predicates. -/
theorem kind_predicate_narrowing
    (tag : String) (defaults : ErrorDefaults) (dataArg : Option DataVal)
    (msgArg : Option String) (codeOpt : Option String) (causeOpt : Option ErrVal)
    (fakeTag : String) :
    isTaggedInternalError (constructTagged .internal tag defaults dataArg msgArg codeOpt causeOpt) = true
    ∧ isTaggedException (constructTagged .internal tag defaults dataArg msgArg codeOpt causeOpt) = false
    ∧ isTaggedException (constructTagged .exception tag defaults dataArg msgArg codeOpt causeOpt) = true
    ∧ isTaggedInternalError (constructTagged .exception tag defaults dataArg msgArg codeOpt causeOpt) = false
    ∧ ("@error/internal/".toList.isPrefixOf fakeTag.toList = true
        ∨ "@error/exception/".toList.isPrefixOf fakeTag.toList = true →
        isTaggedInternalError (.plainObj (some fakeTag)) = false
        ∧ isTaggedException (.plainObj (some fakeTag)) = false) := by
  exact ⟨rfl, rfl, rfl, rfl, fun _ => ⟨rfl, rfl⟩⟩

/-- Witness for C3 at concrete instances, including a marker-less object with
an internal-error-looking `_tag`. -/
theorem kind_predicate_narrowing_witness :
    isTaggedInternalError (constructTagged .internal "@error/internal/unknown"
      { code := "I_UNKNOWN_ERROR", message := "m" } none none none none) = true
    ∧ isTaggedInternalError (.plainObj (some "@error/internal/unknown")) = false
    ∧ isTaggedException (.plainObj (some "@error/internal/unknown")) = false := by
  refine ⟨(kind_predicate_narrowing "@error/internal/unknown"
      { code := "I_UNKNOWN_ERROR", message := "m" } none none none none
      "@error/internal/unknown").1, ?_, ?_⟩
  · exact ((kind_predicate_narrowing "@error/internal/unknown"
      { code := "I_UNKNOWN_ERROR", message := "m" } none none none none
      "@error/internal/unknown").2.2.2.2 (Or.inl (by decide))).1
  · exact ((kind_predicate_narrowing "@error/internal/unknown"
      { code := "I_UNKNOWN_ERROR", message := "m" } none none none none
      "@error/internal/unknown").2.2.2.2 (Or.inl (by decide))).2

/-! ## Claim C4 — exit-handling case analysis -/

/-- **C4**: `handleRuntimeExitResult` throws the carried error as-is on a
clean failure, converts a defect via `toInternalServerException` (yielding a
tagged exception), returns the value on success, and on any other exit shape
throws an `InternalServerException` wrapping an
`UnexpectedRuntimeExitResultError`. -/
theorem handleRuntimeExitResult_cases {α : Type} (a : α) (e d : ErrVal) :
    handleRuntimeExitResult (α := α) (.failure (.failCauseOf e)) = .error e
    ∧ handleRuntimeExitResult (α := α) (.failure (.dieCauseOf d))
        = .error (toInternalServerException none d)
    ∧ isTaggedException (toInternalServerException none d) = true
    ∧ handleRuntimeExitResult (.success a) = .ok a
    ∧ handleRuntimeExitResult (α := α) (.failure .interruptCause)
        = .error (internalServerExceptionFromUnknown none unexpectedRuntimeExitResultError)
    ∧ (internalServerExceptionFromUnknown none unexpectedRuntimeExitResultError).tagOf
        = internalServerExceptionTag
    ∧ (internalServerExceptionFromUnknown none unexpectedRuntimeExitResultError).causeOf
        = some unexpectedRuntimeExitResultError := by
  exact ⟨rfl, rfl, isTaggedException_toInternalServerException none d, rfl, rfl, rfl, rfl⟩

/-! ## Claim C5 — information loss in the unknown-error re-wrap

The conversion computes a data bundle (inner error serialization merged with
the `__exception__` marker for exceptions) and passes it inside the options
record of `new UnknownError(message, { cause, data, code })`, but the
inherited constructor reads only `code` and `cause` from that record: the
bundle is discarded, so neither the `__exception__` marker nor the inner
error's serialized data is recoverable from the wrapper. -/

/-- A tagged exception carrying a cause and schema-valid attached data, as a
representative input for the re-wrap conversion. -/
def sampleCausedException : ErrVal :=
  .tagged .exception "@error/exception/demo" "E_DEMO" "a demo exception" 400
    (some (mkErrorFromString "root failure"))
    (some [("field", .tStr)])
    (some (.vObj [("field", .vStr "value")]))

/-- **C5** (code bug exhibit): for both cited generations of
`toInternalUnknownError`, the wrapper of a tagged exception is an
`UnknownError` that preserves the cause and defaults the code, but stores no
data at all — the `__exception__` marker and the inner serialized data are
lost, contradicting the claimed data preservation. -/
theorem toInternalUnknownError_discards_data :
    (ErrorAndException.toInternalUnknownError none none none sampleCausedException).tagOf
        = unknownErrorTag
    ∧ (ErrorAndException.toInternalUnknownError none none none sampleCausedException).causeOf
        = some (mkErrorFromString "root failure")
    ∧ (ErrorAndException.toInternalUnknownError none none none sampleCausedException).codeOf
        = I_UNKNOWN_ERROR
    ∧ (ErrorAndException.toInternalUnknownError none none none sampleCausedException).storedOf
        = none
    ∧ (ErrorAndException.toInternalUnknownError none none none sampleCausedException).schemaOf
        = none
    ∧ errData (ErrorAndException.toInternalUnknownError none none none sampleCausedException)
        = .ok none
    ∧ (toInternalUnknownError none none none sampleCausedException).storedOf = none
    ∧ errData (toInternalUnknownError none none none sampleCausedException) = .ok none := by
  exact ⟨rfl, rfl, rfl, rfl, rfl, rfl, rfl, rfl⟩

/-! ## Claim C6 — deferred data validation -/

/-- **C6**: construction with arbitrary data is total and merely stores the
raw payload; the `data()` accessor answers no-data without a schema or stored
data, otherwise decodes-and-validates, failing with the schema parse failure
on violation; and whatever it exposes is the validated decoding of the stored
payload, never the raw data. -/
theorem deferred_data_validation (kind : ErrorKind) (tag : String)
    (defaults : ErrorDefaults) (dataArg : Option DataVal) (msgArg : Option String)
    (codeOpt : Option String) (causeOpt : Option ErrVal) :
    (constructTagged kind tag defaults dataArg msgArg codeOpt causeOpt).storedOf = dataArg
    ∧ (defaults.schema = none ∨ dataArg = none →
        errData (constructTagged kind tag defaults dataArg msgArg codeOpt causeOpt) = .ok none)
    ∧ (∀ sch d, defaults.schema = some sch → dataArg = some d →
        errData (constructTagged kind tag defaults dataArg msgArg codeOpt causeOpt) =
          (match decodeSchema sch d with
           | some dec => .ok (some dec)
           | none => .error (parseFailVal d)))
    ∧ (∀ dec, errData (constructTagged kind tag defaults dataArg msgArg codeOpt causeOpt)
          = .ok (some dec) →
        ∃ sch d, defaults.schema = some sch ∧ dataArg = some d
          ∧ decodeSchema sch d = some dec) := by
  obtain ⟨dcode, dmsg, dstatus, dschema⟩ := defaults
  cases dschema with
  | none =>
      refine ⟨rfl, fun _ => ?_, ?_, ?_⟩
      · cases dataArg <;> rfl
      · intro sch d h1 h2
        exact Option.noConfusion h1
      · intro dec h
        cases hda : dataArg <;> rw [hda] at h <;>
          exact Option.noConfusion (Except.ok.inj h)
  | some sch0 =>
      cases dataArg with
      | none =>
          refine ⟨rfl, fun _ => rfl, ?_, ?_⟩
          · intro sch d h1 h2
            exact Option.noConfusion h2
          · intro dec h
            exact Option.noConfusion (Except.ok.inj h)
      | some d0 =>
          have heq : errData (constructTagged kind tag
              ⟨dcode, dmsg, dstatus, some sch0⟩ (some d0) msgArg codeOpt causeOpt)
              = (match decodeSchema sch0 d0 with
                 | some dec => .ok (some dec)
                 | none => .error (parseFailVal d0)) := rfl
          refine ⟨rfl, ?_, ?_, ?_⟩
          · intro h
            rcases h with h | h <;> exact Option.noConfusion h
          · intro sch d h1 h2
            injection h1 with h1
            injection h2 with h2
            subst h1
            subst h2
            exact heq
          · intro dec h
            rw [heq] at h
            cases hdec : decodeSchema sch0 d0 with
            | none =>
                rw [hdec] at h
                exact Except.noConfusion h
            | some dec2 =>
                rw [hdec] at h
                exact ⟨sch0, d0, rfl, rfl, by rw [hdec]; exact Except.ok.inj h⟩

/-- Witness for C6: an instance constructed with schema-violating data is
still constructed (the raw data is stored), and its `data()` accessor fails
with the schema parse failure. -/
theorem deferred_data_validation_witness :
    (constructTagged .internal "@error/internal/demo"
        { code := "I_DEMO", message := "m", schema := some [("n", .tNum)] }
        (some (.vObj [("n", .vStr "bad")])) none none none).storedOf
      = some (.vObj [("n", .vStr "bad")])
    ∧ errData (constructTagged .internal "@error/internal/demo"
        { code := "I_DEMO", message := "m", schema := some [("n", .tNum)] }
        (some (.vObj [("n", .vStr "bad")])) none none none)
      = .error (parseFailVal (.vObj [("n", .vStr "bad")])) := by
  refine ⟨(deferred_data_validation .internal "@error/internal/demo"
      { code := "I_DEMO", message := "m", schema := some [("n", .tNum)] }
      (some (.vObj [("n", .vStr "bad")])) none none none).1, ?_⟩
  have h := (deferred_data_validation .internal "@error/internal/demo"
      { code := "I_DEMO", message := "m", schema := some [("n", .tNum)] }
      (some (.vObj [("n", .vStr "bad")])) none none none).2.2.1
      [("n", .tNum)] (.vObj [("n", .vStr "bad")]) rfl rfl
  rw [h]
  rfl

/-! ## Claim C7 — transaction exit coupling -/

/-- **C7**: for a unit of work that created a database transaction, a success
exit invokes commit exactly once and rollback never; a failure exit
(including cancellation) invokes rollback exactly once and commit never; and
every exit invokes exactly one transaction operation, so the transaction is
never left open. -/
theorem transaction_exit_coupling (exit : ScopeExit) :
    (exit = .succeeds →
        (runTransactionalUnit exit).count .commit = 1
        ∧ (runTransactionalUnit exit).count .rollback = 0)
    ∧ (∀ e, exit = .fails e →
        (runTransactionalUnit exit).count .rollback = 1
        ∧ (runTransactionalUnit exit).count .commit = 0)
    ∧ (exit = .interrupted →
        (runTransactionalUnit exit).count .rollback = 1
        ∧ (runTransactionalUnit exit).count .commit = 0)
    ∧ (runTransactionalUnit exit).length = 1 := by
  refine ⟨?_, ?_, ?_, ?_⟩
  · intro h
    subst h
    exact ⟨rfl, rfl⟩
  · intro e h
    subst h
    exact ⟨rfl, rfl⟩
  · intro h
    subst h
    exact ⟨rfl, rfl⟩
  · cases exit <;> rfl

/-- Witness for C7 at the three exit shapes. -/
theorem transaction_exit_coupling_witness :
    (runTransactionalUnit .succeeds).count .commit = 1
    ∧ (runTransactionalUnit (.fails (.strVal "boom"))).count .rollback = 1
    ∧ (runTransactionalUnit .interrupted).count .commit = 0 := by
  exact ⟨((transaction_exit_coupling .succeeds).1 rfl).1,
         ((transaction_exit_coupling (.fails (.strVal "boom"))).2.1 (.strVal "boom") rfl).1,
         ((transaction_exit_coupling .interrupted).2.2.1 rfl).2⟩

/-! ## Claim C8 — telemetry sink discipline -/

/-- Characterization of a failing `data()` read: it happens exactly for a
declared schema with stored data that fails decoding, and the failure is the
schema parse failure on that data. -/
theorem errData_error_char (e f : ErrVal) (h : errData e = .error f) :
    ∃ sch d, e.schemaOf = some sch ∧ e.storedOf = some d
      ∧ decodeSchema sch d = none ∧ f = parseFailVal d := by
  cases e <;> try exact Except.noConfusion h
  rename_i kind tg cd ms st cs sch std
  cases sch with
  | none => exact Except.noConfusion h
  | some sch0 =>
      cases std with
      | none => exact Except.noConfusion h
      | some d0 =>
          have heq : errData (.tagged kind tg cd ms st cs (some sch0) (some d0))
              = (match decodeSchema sch0 d0 with
                 | some dec => .ok (some dec)
                 | none => .error (parseFailVal d0)) := rfl
          rw [heq] at h
          cases hdec : decodeSchema sch0 d0 with
          | some dec =>
              rw [hdec] at h
              exact Except.noConfusion h
          | none =>
              rw [hdec] at h
              exact ⟨sch0, d0, rfl, rfl, hdec, (Except.error.inj h).symm⟩

/-- Whether the error matches one of the requested category filters, branch
by branch as `logError` checks them. -/
def logErrorMatchedCategory (error : ErrVal) (log : List LogCategory) : Bool :=
  if (isTaggedInternalError error
        && (log.contains .internalErrorCat || log.contains .allCat))
     || (isTaggedException error
        && (log.contains .knownExceptionCat || log.contains .allCat)) then true
  else if isInstanceOfAdonisException error
          && (log.contains .adonisExceptionCat || log.contains .allCat) then true
  else if (log.contains .unknownCat || log.contains .allCat)
          && !isTaggedInternalError error && !isTaggedException error
          && !isInstanceOfAdonisException error then true
  else false

/-- Counterexample to C8 as stated: a tagged internal error whose stored data
violates its schema, logged with the `all` category, makes the logging effect
fail with the schema decode failure and emit no record — `logError` is not
failure-free and does not emit exactly one record per call. -/
theorem logError_counterexample :
    logError (constructTagged .internal "@error/internal/demo"
        { code := "I_DEMO", message := "demo internal error", schema := some [("n", .tNum)] }
        (some (.vObj [("n", .vStr "not-a-number")])) none none none) [.allCat]
      = .error (parseFailVal (.vObj [("n", .vStr "not-a-number")]))
    ∧ ∀ recs, logError (constructTagged .internal "@error/internal/demo"
        { code := "I_DEMO", message := "demo internal error", schema := some [("n", .tNum)] }
        (some (.vObj [("n", .vStr "not-a-number")])) none none none) [.allCat]
      ≠ .ok recs := by
  refine ⟨rfl, ?_⟩
  intro recs h
  exact Except.noConfusion h

/-- **C8** (amended): `logError` emits at most one record per call, every
emitted record has severity ERROR; when the error matches no requested
category nothing is emitted and the effect succeeds; the effect fails exactly
when a tagged error's attached data fails schema validation (emitting
nothing); and whenever the error matches a requested category and its
attached data reads successfully, exactly one ERROR record is emitted. -/
theorem logError_sink_discipline (error : ErrVal) (log : List LogCategory) :
    (∀ recs, logError error log = .ok recs →
        recs.length ≤ 1 ∧ ∀ r ∈ recs, r.severityText = "ERROR")
    ∧ (logErrorMatchedCategory error log = false → logError error log = .ok [])
    ∧ (∀ f, logError error log = .error f →
        ∃ sch d, error.schemaOf = some sch ∧ error.storedOf = some d
          ∧ decodeSchema sch d = none ∧ f = parseFailVal d)
    ∧ (logErrorMatchedCategory error log = true → (errData error).isOk = true →
        ∃ r, logError error log = .ok [r] ∧ r.severityText = "ERROR") := by
  refine ⟨?_, ?_, ?_, ?_⟩
  · intro recs h
    unfold logError at h
    by_cases h1 : ((isTaggedInternalError error
          && (log.contains .internalErrorCat || log.contains .allCat))
        || (isTaggedException error
          && (log.contains .knownExceptionCat || log.contains .allCat))) = true
    · rw [if_pos h1] at h
      cases hd : errData error with
      | error f =>
          rw [hd] at h
          exact Except.noConfusion h
      | ok d =>
          rw [hd] at h
          injection h with h
          rw [← h]
          refine ⟨by simp, ?_⟩
          intro r hr
          rw [List.mem_singleton] at hr
          subst hr
          rfl
    · rw [if_neg (by rw [Bool.not_eq_true] at h1; rw [h1]; exact Bool.false_ne_true)] at h
      by_cases h2 : (isInstanceOfAdonisException error
          && (log.contains .adonisExceptionCat || log.contains .allCat)) = true
      · rw [if_pos h2] at h
        injection h with h
        rw [← h]
        refine ⟨by simp, ?_⟩
        intro r hr
        rw [List.mem_singleton] at hr
        subst hr
        rfl
      · rw [if_neg (by rw [Bool.not_eq_true] at h2; rw [h2]; exact Bool.false_ne_true)] at h
        by_cases h3 : ((log.contains .unknownCat || log.contains .allCat)
            && !isTaggedInternalError error && !isTaggedException error
            && !isInstanceOfAdonisException error) = true
        · rw [if_pos h3] at h
          injection h with h
          rw [← h]
          refine ⟨by simp, ?_⟩
          intro r hr
          rw [List.mem_singleton] at hr
          subst hr
          rfl
        · rw [if_neg (by rw [Bool.not_eq_true] at h3; rw [h3]; exact Bool.false_ne_true)] at h
          injection h with h
          rw [← h]
          exact ⟨by simp, by intro r hr; exact absurd hr (List.not_mem_nil r)⟩
  · intro hm
    unfold logErrorMatchedCategory at hm
    unfold logError
    by_cases h1 : ((isTaggedInternalError error
          && (log.contains .internalErrorCat || log.contains .allCat))
        || (isTaggedException error
          && (log.contains .knownExceptionCat || log.contains .allCat))) = true
    · rw [if_pos h1] at hm
      exact Bool.noConfusion hm
    · rw [if_neg (by rw [Bool.not_eq_true] at h1; rw [h1]; exact Bool.false_ne_true)] at hm
      rw [if_neg (by rw [Bool.not_eq_true] at h1; rw [h1]; exact Bool.false_ne_true)]
      by_cases h2 : (isInstanceOfAdonisException error
          && (log.contains .adonisExceptionCat || log.contains .allCat)) = true
      · rw [if_pos h2] at hm
        exact Bool.noConfusion hm
      · rw [if_neg (by rw [Bool.not_eq_true] at h2; rw [h2]; exact Bool.false_ne_true)] at hm
        rw [if_neg (by rw [Bool.not_eq_true] at h2; rw [h2]; exact Bool.false_ne_true)]
        by_cases h3 : ((log.contains .unknownCat || log.contains .allCat)
            && !isTaggedInternalError error && !isTaggedException error
            && !isInstanceOfAdonisException error) = true
        · rw [if_pos h3] at hm
          exact Bool.noConfusion hm
        · rw [if_neg (by rw [Bool.not_eq_true] at h3; rw [h3]; exact Bool.false_ne_true)]
  · intro f h
    unfold logError at h
    by_cases h1 : ((isTaggedInternalError error
          && (log.contains .internalErrorCat || log.contains .allCat))
        || (isTaggedException error
          && (log.contains .knownExceptionCat || log.contains .allCat))) = true
    · rw [if_pos h1] at h
      cases hd : errData error with
      | error f2 =>
          rw [hd] at h
          injection h with h
          rw [← h]
          exact errData_error_char error f2 hd
      | ok d =>
          rw [hd] at h
          exact Except.noConfusion h
    · rw [if_neg (by rw [Bool.not_eq_true] at h1; rw [h1]; exact Bool.false_ne_true)] at h
      by_cases h2 : (isInstanceOfAdonisException error
          && (log.contains .adonisExceptionCat || log.contains .allCat)) = true
      · rw [if_pos h2] at h
        exact Except.noConfusion h
      · rw [if_neg (by rw [Bool.not_eq_true] at h2; rw [h2]; exact Bool.false_ne_true)] at h
        by_cases h3 : ((log.contains .unknownCat || log.contains .allCat)
            && !isTaggedInternalError error && !isTaggedException error
            && !isInstanceOfAdonisException error) = true
        · rw [if_pos h3] at h
          exact Except.noConfusion h
        · rw [if_neg (by rw [Bool.not_eq_true] at h3; rw [h3]; exact Bool.false_ne_true)] at h
          exact Except.noConfusion h
  · intro hm hok
    unfold logErrorMatchedCategory at hm
    unfold logError
    by_cases h1 : ((isTaggedInternalError error
          && (log.contains .internalErrorCat || log.contains .allCat))
        || (isTaggedException error
          && (log.contains .knownExceptionCat || log.contains .allCat))) = true
    · rw [if_pos h1]
      cases hd : errData error with
      | error f =>
          rw [hd] at hok
          exact Bool.noConfusion hok
      | ok d =>
          exact ⟨_, rfl, rfl⟩
    · rw [if_neg (by rw [Bool.not_eq_true] at h1; rw [h1]; exact Bool.false_ne_true)] at hm
      rw [if_neg (by rw [Bool.not_eq_true] at h1; rw [h1]; exact Bool.false_ne_true)]
      by_cases h2 : (isInstanceOfAdonisException error
          && (log.contains .adonisExceptionCat || log.contains .allCat)) = true
      · rw [if_pos h2]
        exact ⟨_, rfl, rfl⟩
      · rw [if_neg (by rw [Bool.not_eq_true] at h2; rw [h2]; exact Bool.false_ne_true)] at hm
        rw [if_neg (by rw [Bool.not_eq_true] at h2; rw [h2]; exact Bool.false_ne_true)]
        by_cases h3 : ((log.contains .unknownCat || log.contains .allCat)
            && !isTaggedInternalError error && !isTaggedException error
            && !isInstanceOfAdonisException error) = true
        · rw [if_pos h3]
          exact ⟨_, rfl, rfl⟩
        · rw [if_neg (by rw [Bool.not_eq_true] at h3; rw [h3]; exact Bool.false_ne_true)] at hm
          exact Bool.noConfusion hm

/-- Witness for the amended C8: a plain string logged with a non-matching
category filter yields no record; the same string with `all` yields exactly
one ERROR record. -/
theorem logError_sink_discipline_witness :
    logError (.strVal "plain failure") [.internalErrorCat] = .ok []
    ∧ ∃ r, logError (.strVal "plain failure") [.allCat] = .ok [r]
        ∧ r.severityText = "ERROR" := by
  refine ⟨(logError_sink_discipline (.strVal "plain failure") [.internalErrorCat]).2.1 rfl, ?_⟩
  exact (logError_sink_discipline (.strVal "plain failure") [.allCat]).2.2.2 rfl rfl

/-! ## Claim C9 — data-mode inference -/

/-- **C9** (code bug exhibit): the data-mode inference of
`core/http/internals/shared.ts` has no plain-object case, so a plain object
infers `raw`, while the doc-commented `HttpUtility.Response` version of the
same function (and the spec) infer `single`; `undefined` infers `none`,
arrays (such as `[1,2,3]`) infer `list`, and other primitives infer `raw` in
both versions. -/
theorem inferResponseDataMode_object_divergence :
    inferResponseDataModeFromData .objV = .raw
    ∧ inferResponseDataModeHttpUtility .objV = .single
    ∧ inferResponseDataModeFromData .arrV = .list
    ∧ inferResponseDataModeHttpUtility .arrV = .list
    ∧ inferResponseDataModeFromData .undef = .nodata
    ∧ inferResponseDataModeHttpUtility .undef = .nodata
    ∧ inferResponseDataModeFromData .strV = .raw
    ∧ inferResponseDataModeHttpUtility .strV = .raw := by
  exact ⟨rfl, rfl, rfl, rfl, rfl, rfl, rfl, rfl⟩

/-! ## Claim C10 — route-not-found data parsing fallback -/

/-- **C10**: `RouteNotFoundException.fromException` parses the framework
exception's message against the pattern `Cannot <METHOD>:<URL>`, trims both
captured parts into the attached data, falls back to
`{method: "unknown", url: "unknown"}` for any non-matching message, and
always records the original exception as the cause. -/
theorem routeNotFound_message_parsing (code msg : String) (status : Nat)
    (cause : Option ErrVal) (payload : DataVal) :
    (routeNotFoundFromException (.foreign .routeNotFound code msg status cause payload)).causeOf
        = some (.foreign .routeNotFound code msg status cause payload)
    ∧ isTaggedException
        (routeNotFoundFromException (.foreign .routeNotFound code msg status cause payload)) = true
    ∧ (routeNotFoundFromException (.foreign .routeNotFound code msg status cause payload)).codeOf
        = E_ROUTE_NOT_FOUND
    ∧ (∀ g1 g2, routeParse msg = some (g1, g2) →
        (routeNotFoundFromException (.foreign .routeNotFound code msg status cause payload)).storedOf
          = some (.vObj [("method", .vStr (jsTrim g1)), ("url", .vStr (jsTrim g2))]))
    ∧ (routeParse msg = none →
        (routeNotFoundFromException (.foreign .routeNotFound code msg status cause payload)).storedOf
          = some (.vObj [("method", .vStr "unknown"), ("url", .vStr "unknown")])) := by
  refine ⟨rfl, rfl, rfl, ?_, ?_⟩
  · intro g1 g2 h
    simp only [routeNotFoundFromException, ErrVal.messageOf, ErrVal.storedOf, h]
  · intro h
    simp only [routeNotFoundFromException, ErrVal.messageOf, ErrVal.storedOf, h]

/-- Witness for C10: the canonical framework message parses into method and
url, and a nonsense message falls back to `unknown`/`unknown`. -/
theorem routeNotFound_message_parsing_witness :
    (routeNotFoundFromException
        (.foreign .routeNotFound "E_ROUTE_NOT_FOUND" "Cannot GET:/missing" 404 none .vNull)).causeOf
      = some (.foreign .routeNotFound "E_ROUTE_NOT_FOUND" "Cannot GET:/missing" 404 none .vNull)
    ∧ (routeNotFoundFromException
        (.foreign .routeNotFound "E_ROUTE_NOT_FOUND" "Cannot GET:/missing" 404 none .vNull)).storedOf
      = some (.vObj [("method", .vStr "GET"), ("url", .vStr "/missing")])
    ∧ (routeNotFoundFromException
        (.foreign .routeNotFound "E_ROUTE_NOT_FOUND" "nonsense message" 404 none .vNull)).storedOf
      = some (.vObj [("method", .vStr "unknown"), ("url", .vStr "unknown")]) := by
  refine ⟨(routeNotFound_message_parsing "E_ROUTE_NOT_FOUND" "Cannot GET:/missing"
      404 none .vNull).1, ?_, ?_⟩
  · have h := (routeNotFound_message_parsing "E_ROUTE_NOT_FOUND" "Cannot GET:/missing"
      404 none .vNull).2.2.2.1 "GET" "/missing" (by decide)
    rw [h]
    rfl
  · exact (routeNotFound_message_parsing "E_ROUTE_NOT_FOUND" "nonsense message"
      404 none .vNull).2.2.2.2 (by decide)

end AdonisSpec
